import Mathlib

/-!
Verification of the banking repository's account-provisioning and
transaction-synchronization pipeline.

The definitions below are a shallow embedding of the TypeScript source:
  * `src/unnamed/part_001`  (user actions: signIn, signUp, exchangePublicToken, ...)
  * `src/unnamed/part_000`  (AuthForm onSubmit error-message classification)
  * `src/lib/actions/bank.actions.ts`  (getAccounts, getAccount, getTransactions)
  * `src/lib/actions/dwolla.actions.ts` (createDwollaCustomer, createFundingSource, ...)

External collaborators (Appwrite, Plaid, Dwolla) are modelled as explicit
parameters giving the outcome of each remote call: `Except` for calls that
can reject (throw), `Option` for values that can be `undefined`/`null`.
JavaScript strings are modelled as Lean `String`s; the only case-folding the
source performs is `toLowerCase` on ASCII message text, modelled
character-wise below.
-/

namespace Banking

/-- ASCII lower-casing of one character, as `String.prototype.toLowerCase`
behaves on the ASCII message text the classifiers inspect. -/
def lowerChar (c : Char) : Char :=
  if 'A' ≤ c ∧ c ≤ 'Z' then Char.ofNat (c.toNat + 32) else c

/-- ASCII `toLowerCase` on a whole string. -/
def lowerStr (s : String) : String :=
  String.mk (s.toList.map lowerChar)

/-- `startsWithL n l` is true when the character list `l` begins with `n`. -/
def startsWithL : List Char → List Char → Bool
  | [], _ => true
  | _ :: _, [] => false
  | a :: as, b :: bs => a == b && startsWithL as bs

/-- `subL n l` is true when `n` occurs as a contiguous sublist of `l`,
modelling JavaScript's `String.prototype.includes`. -/
def subL (n : List Char) : List Char → Bool
  | [] => n.isEmpty
  | c :: cs => startsWithL n (c :: cs) || subL n cs

/-- `containsSub needle hay` models `hay.includes(needle)` on strings. -/
def containsSub (needle hay : String) : Bool :=
  subL needle.toList hay.toList

/-- A raw upstream error bundle as the catch blocks see it:
a message string plus an optional numeric `code`. -/
structure ErrBundle where
  message : String
  code : Option Nat
  deriving Repr, DecidableEq

/-- The `isInvalidCredentials` test of `signIn`
(`src/unnamed/part_001` lines 90-96): the message is lower-cased and each
credential marker only fires when the message does not mention "profile". -/
def isInvalidCredentials (e : ErrBundle) : Bool :=
  let m := lowerStr e.message
  (containsSub "invalid credentials" m && !containsSub "profile" m) ||
  (containsSub "invalid password" m && !containsSub "profile" m) ||
  (containsSub "wrong password" m && !containsSub "profile" m) ||
  (containsSub "user not found" m && !containsSub "profile" m) ||
  (e.code == some 401 && containsSub "unauthorized" m && !containsSub "profile" m)

/-- The uniform invalid-credentials message thrown by `signIn`. -/
def invalidCredsMsg : String := "Invalid email or password. Please try again."

/-- The error thrown by `signIn` when the profile document is absent
(`src/unnamed/part_001` line 69). -/
def profileMissingMsg : String :=
  "PROFILE_DATA_MISSING: Your account exists but profile data is missing. This may have occurred during sign-up. Please try signing up again or contact support."

/-- The catch block of `signIn` (`src/unnamed/part_001` lines 74-104):
re-throw profile-data-missing errors unchanged, replace recognised
credential errors by the uniform message, re-throw everything else. -/
def signInCatch (e : ErrBundle) : ErrBundle :=
  if containsSub "PROFILE_DATA_MISSING" e.message then e
  else if isInvalidCredentials e then ⟨invalidCredsMsg, none⟩
  else e

/-- The guard of the invalid-credentials branch of `onSubmit` in the auth
form (`src/unnamed/part_000` lines 115-119), on the lower-cased message. -/
def onSubmitInvalidCredsCond (e : ErrBundle) : Bool :=
  let m := lowerStr e.message
  (containsSub "invalid credentials" m ||
   containsSub "invalid password" m ||
   containsSub "wrong password" m ||
   (e.code == some 401 && containsSub "unauthorized" m)) &&
  !containsSub "profile" m

end Banking

namespace Banking

theorem lowerStr_eq_of_eq {a b : String} (h : a = b) : lowerStr a = lowerStr b := by
  rw [h]

/-- Claim C3: for every raw error bundle whose message contains "profile"
(case-insensitively, i.e. after ASCII lower-casing), the classification
never yields invalid credentials: the `isInvalidCredentials` test of
`signIn` is false, the error `signIn` re-throws is not the uniform
invalid-credentials message, and the invalid-credentials branch guard of
the form's `onSubmit` is false. -/
theorem profile_suppresses_invalid_credentials (e : ErrBundle)
    (h : containsSub "profile" (lowerStr e.message) = true) :
    isInvalidCredentials e = false ∧
    (signInCatch e).message ≠ invalidCredsMsg ∧
    onSubmitInvalidCredsCond e = false := by
  have hic : isInvalidCredentials e = false := by
    simp only [isInvalidCredentials, h]
    simp
  refine ⟨hic, ?_, ?_⟩
  · intro hmsg
    have : (signInCatch e).message = e.message := by
      simp only [signInCatch, hic]
      split <;> simp
    rw [this] at hmsg
    have := lowerStr_eq_of_eq hmsg
    rw [this] at h
    have : containsSub "profile" (lowerStr invalidCredsMsg) = false := by decide
    rw [this] at h
    exact Bool.false_ne_true h
  · simp only [onSubmitInvalidCredsCond, h]
    simp

/-- Witness for C3 at a concrete bundle: the message "Invalid credentials: profile lookup failed"
contains "profile" and is not classified as invalid credentials. -/
theorem profile_suppresses_invalid_credentials_witness :
    containsSub "profile" (lowerStr "Invalid credentials: Profile lookup failed") = true ∧
    isInvalidCredentials ⟨"Invalid credentials: Profile lookup failed", some 401⟩ = false :=
  ⟨by decide,
   (profile_suppresses_invalid_credentials ⟨"Invalid credentials: Profile lookup failed", some 401⟩
      (by decide)).1⟩

end Banking

namespace Banking

/-- An Appwrite email/password session: the authenticated principal's id
and the session secret that `signIn` stores in the "appwrite-session"
cookie. -/
structure Session where
  userId : String
  secret : String
  deriving Repr, DecidableEq

/-- A user profile document as stored in the Appwrite user collection.
Only the linkage field matters for the claims. -/
structure Profile where
  userId : String
  deriving Repr, DecidableEq

/-- The observable outcome of one `signIn` call: the value returned or the
error thrown, together with the final state of the "appwrite-session"
cookie. -/
structure SignInOutcome where
  result : Except ErrBundle Profile
  cookie : Option String
  deriving Repr

/-- `signIn` (`src/unnamed/part_001` lines 46-105).
`auth` is the outcome of `account.createEmailPasswordSession`,
`getUserInfo` the profile-document lookup by principal id (`null` when no
document exists), `cookie0` the cookie state before the call.  On
successful authentication the session secret is written to the cookie
*before* the profile lookup; the profile-missing path throws
`profileMissingMsg` through the catch block and performs no session or
cookie teardown. -/
def signIn (auth : Except ErrBundle Session) (getUserInfo : String → Option Profile)
    (cookie0 : Option String) : SignInOutcome :=
  match auth with
  | .error e => ⟨.error (signInCatch e), cookie0⟩
  | .ok s =>
    match getUserInfo s.userId with
    | none => ⟨.error (signInCatch ⟨profileMissingMsg, none⟩), some s.secret⟩
    | some u => ⟨.ok u, some s.secret⟩

/-- Counterexample to claim C2 as stated: with correct credentials
(authentication succeeds with secret "sec1") and no profile document, the
operation does fail with the profile-data-missing error, but the session
cookie set during the attempt *remains set* — the outcome's cookie is
`some "sec1"`, not `none`, so the principal session is left dangling. -/
theorem signIn_session_revoked_cex :
    (signIn (.ok ⟨"user1", "sec1"⟩) (fun _ => none) none).result
        = .error ⟨profileMissingMsg, none⟩ ∧
    (signIn (.ok ⟨"user1", "sec1"⟩) (fun _ => none) none).cookie = some "sec1" ∧
    some "sec1" ≠ (none : Option String) := by
  refine ⟨?_, rfl, by simp⟩
  show Except.error (signInCatch ⟨profileMissingMsg, none⟩) = _
  have : signInCatch ⟨profileMissingMsg, none⟩ = ⟨profileMissingMsg, none⟩ := by
    simp only [signInCatch]
    have : containsSub "PROFILE_DATA_MISSING" profileMissingMsg = true := by decide
    simp [this]
  rw [this]

/-- Claim C2 amended: for every sign-in where authentication succeeds but
no profile document exists for the resulting identity, the operation fails
with the profile-data-missing error (whose message carries the
PROFILE_DATA_MISSING marker and is never the invalid-credentials message),
but the session established during the attempt is NOT revoked: the session
cookie remains set to the new session's secret. -/
theorem signIn_profileMissing_cookie_remains (s : Session)
    (getUserInfo : String → Option Profile) (cookie0 : Option String)
    (h : getUserInfo s.userId = none) :
    (signIn (.ok s) getUserInfo cookie0).result = .error ⟨profileMissingMsg, none⟩ ∧
    containsSub "PROFILE_DATA_MISSING" profileMissingMsg = true ∧
    profileMissingMsg ≠ invalidCredsMsg ∧
    (signIn (.ok s) getUserInfo cookie0).cookie = some s.secret := by
  refine ⟨?_, by decide, by decide, ?_⟩
  · simp only [signIn, h]
    have hpm : signInCatch ⟨profileMissingMsg, none⟩ = ⟨profileMissingMsg, none⟩ := by
      simp only [signInCatch]
      have : containsSub "PROFILE_DATA_MISSING" profileMissingMsg = true := by decide
      simp [this]
    rw [hpm]
  · simp only [signIn, h]

/-- Witness for the amended C2 at a concrete session and empty store. -/
theorem signIn_profileMissing_cookie_remains_witness :
    (signIn (.ok ⟨"u7", "secret7"⟩) (fun _ => none) none).result
        = .error ⟨profileMissingMsg, none⟩ ∧
    (signIn (.ok ⟨"u7", "secret7"⟩) (fun _ => none) none).cookie = some "secret7" := by
  have h := signIn_profileMissing_cookie_remains ⟨"u7", "secret7"⟩ (fun _ => none) none rfl
  exact ⟨h.1, h.2.2.2⟩

end Banking

namespace Banking

/-- A transaction as returned by the Plaid `transactionsSync` endpoint
(the fields `getTransactions` reads).  Amounts are modelled as integers;
`category` is `none` when the field is null/undefined; `date` is the raw
date string of the provider. -/
structure PlaidTransaction where
  transaction_id : String
  name : String
  payment_channel : String
  account_id : String
  amount : Int
  pending : Bool
  category : Option (List String)
  date : String
  logo_url : Option String
  deriving Repr, DecidableEq

/-- The normalized transaction shape built inside the sync loop
(`src/lib/actions/bank.actions.ts` lines 196-207). -/
structure NormalizedTxn where
  id : String
  name : String
  paymentChannel : String
  type : String
  accountId : String
  amount : Int
  pending : Bool
  category : Option String
  date : String
  image : Option String
  deriving Repr, DecidableEq

/-- Normalization of one added Plaid transaction
(`src/lib/actions/bank.actions.ts` lines 196-207).  `category` follows the
source's `transaction.category ? transaction.category[0] : ""`:
a null category becomes `""`, a present category contributes its head
(undefined — `none` — when the array is empty). -/
def normalizeTxn (t : PlaidTransaction) : NormalizedTxn :=
  { id := t.transaction_id
    name := t.name
    paymentChannel := t.payment_channel
    type := t.payment_channel
    accountId := t.account_id
    amount := t.amount
    pending := t.pending
    category := match t.category with
      | none => some ""
      | some l => l.head?
    date := t.date
    image := t.logo_url }

/-- One response of the provider's `transactionsSync` endpoint.  `added`
is `none` when the field is missing or not an array (treated as zero
entries by the loop, line 209-211). -/
structure SyncResponse where
  added : Option (List PlaidTransaction)
  next_cursor : String
  has_more : Bool
  deriving Repr, DecidableEq

/-- The normalized entries one page contributes to the accumulator. -/
def pageAdded (r : SyncResponse) : List NormalizedTxn :=
  match r.added with
  | some l => l.map normalizeTxn
  | none => []

/-- The `while (hasMore)` loop of `getTransactions`
(`src/lib/actions/bank.actions.ts` lines 172-214) together with its
enclosing catch (lines 217-255).  The provider is modelled as the list of
outcomes of successive `transactionsSync` calls: `.ok r` is a response,
`.error e` a request failure.  The result pairs the returned transaction
list with the number of provider calls issued.  A request failure is
caught and the whole call returns the empty list, whatever the error
(every branch of the catch returns `parseStringify([])`).  The `[]` case
models the loop still wanting a page the stream does not provide and is
unreachable under the theorems' hypotheses. -/
def syncLoop : List (Except ErrBundle SyncResponse) → List NormalizedTxn →
    List NormalizedTxn × Nat
  | [], acc => (acc, 0)
  | .error _ :: _, _ => ([], 1)
  | .ok r :: rest, acc =>
    if r.has_more then
      let p := syncLoop rest (acc ++ pageAdded r)
      (p.1, p.2 + 1)
    else (acc ++ pageAdded r, 1)

/-- `getTransactions` (`src/lib/actions/bank.actions.ts` lines 157-256):
a missing access token short-circuits to the empty list (lines 166-169),
otherwise the paging loop runs from the empty accumulator. -/
def getTransactions (accessToken : String)
    (pages : List (Except ErrBundle SyncResponse)) : List NormalizedTxn × Nat :=
  if accessToken = "" then ([], 0) else syncLoop pages []

theorem syncLoop_ok_pages (okPages : List SyncResponse) (last : SyncResponse)
    (rest : List (Except ErrBundle SyncResponse)) (acc : List NormalizedTxn)
    (hall : ∀ p ∈ okPages, p.has_more = true) (hlast : last.has_more = false) :
    syncLoop (okPages.map Except.ok ++ Except.ok last :: rest) acc
      = (acc ++ ((okPages ++ [last]).map pageAdded).flatten, okPages.length + 1) := by
  induction okPages generalizing acc with
  | nil => simp [syncLoop, hlast]
  | cons p ps ih =>
    have hp : p.has_more = true := hall p (by simp)
    have hps : ∀ q ∈ ps, q.has_more = true := fun q hq => hall q (by simp [hq])
    have hrec := ih (acc ++ pageAdded p) hps
    simp only [List.map_cons, List.cons_append, syncLoop, hp, if_true, List.append_eq]
    rw [hrec]
    simp [List.append_assoc]

theorem syncLoop_error (okPages : List SyncResponse) (e : ErrBundle)
    (rest : List (Except ErrBundle SyncResponse)) (acc : List NormalizedTxn)
    (hall : ∀ p ∈ okPages, p.has_more = true) :
    (syncLoop (okPages.map Except.ok ++ Except.error e :: rest) acc).1 = [] := by
  induction okPages generalizing acc with
  | nil => simp [syncLoop]
  | cons p ps ih =>
    have hp : p.has_more = true := hall p (by simp)
    have hps : ∀ q ∈ ps, q.has_more = true := fun q hq => hall q (by simp [hq])
    simp only [List.map_cons, List.cons_append, syncLoop, hp, if_true, List.append_eq]
    exact ih (acc ++ pageAdded p) hps

/-- Claim C4: for every N, if the provider returns `hasMore = true` on each
of the first N responses and `hasMore = false` on the (N+1)-th, then the
sync terminates having issued exactly N+1 provider calls and returns the
concatenation, in page order, of the (normalized) "added" entries of the
N+1 pages — whatever further responses the provider could still serve. -/
theorem getTransactions_terminates_n_plus_one (accessToken : String)
    (okPages : List SyncResponse) (last : SyncResponse)
    (rest : List (Except ErrBundle SyncResponse))
    (htok : accessToken ≠ "")
    (hall : ∀ p ∈ okPages, p.has_more = true) (hlast : last.has_more = false) :
    getTransactions accessToken (okPages.map Except.ok ++ Except.ok last :: rest)
      = (((okPages ++ [last]).map pageAdded).flatten, okPages.length + 1) := by
  simp only [getTransactions, if_neg htok]
  simpa using syncLoop_ok_pages okPages last rest [] hall hlast

/-- Witness for C4 with N = 2: two `hasMore = true` pages and a final page;
3 calls are issued and the added entries are concatenated in order. -/
theorem getTransactions_terminates_n_plus_one_witness :
    getTransactions "tok"
        [Except.ok ⟨some [], "c1", true⟩, Except.ok ⟨none, "c2", true⟩,
         Except.ok ⟨some [], "c3", false⟩]
      = ([], 3) := by
  have h := getTransactions_terminates_n_plus_one "tok"
    [⟨some [], "c1", true⟩, ⟨none, "c2", true⟩] ⟨some [], "c3", false⟩ []
    (by decide)
    (by intro p hp; simp at hp; rcases hp with h | h <;> simp [h])
    rfl
  simpa [pageAdded] using h

/-- Claim C5: every request failure raised mid-loop — whatever its
classification (expired credential, missing consent, or anything else) —
is caught inside `getTransactions`, which returns the empty sequence
instead of propagating the error. -/
theorem getTransactions_error_returns_empty (accessToken : String)
    (okPages : List SyncResponse) (e : ErrBundle)
    (rest : List (Except ErrBundle SyncResponse))
    (htok : accessToken ≠ "")
    (hall : ∀ p ∈ okPages, p.has_more = true) :
    (getTransactions accessToken
        (okPages.map Except.ok ++ Except.error e :: rest)).1 = [] := by
  simp only [getTransactions, if_neg htok]
  exact syncLoop_error okPages e rest [] hall

/-- Witness for C5: a failure on the second call (here an
ITEM_LOGIN_REQUIRED credential error) yields the empty list. -/
theorem getTransactions_error_returns_empty_witness :
    (getTransactions "tok"
        [Except.ok ⟨some [], "c1", true⟩,
         Except.error ⟨"ITEM_LOGIN_REQUIRED", some 400⟩]).1 = [] := by
  have h := getTransactions_error_returns_empty "tok" [⟨some [], "c1", true⟩]
    ⟨"ITEM_LOGIN_REQUIRED", some 400⟩ [] (by decide)
    (by intro p hp; simp at hp; simp [hp])
  simpa using h

end Banking

namespace Banking

/-- Origin of an entry in the merged transaction feed built by
`getAccount`: a provider-fetched transaction or an internally recorded
transfer. -/
inductive FeedSource where
  | provider
  | transfer
  deriving Repr, DecidableEq

/-- One entry of the feed `getAccount` sorts.  `date` is the epoch time
`new Date(x.date).getTime()` the comparator evaluates; `name` stands for
the rest of the payload and keeps distinct entries distinguishable. -/
structure FeedItem where
  source : FeedSource
  date : Nat
  name : String
  deriving Repr, DecidableEq

/-- Insertion step of a stable descending-by-date sort: `x` moves past
exactly the entries with a strictly greater date, so it lands after every
earlier entry of equal date. -/
def insertByDateDesc (x : FeedItem) : List FeedItem → List FeedItem
  | [] => [x]
  | y :: ys => if x.date < y.date then y :: insertByDateDesc x ys else x :: y :: ys

/-- Stable sort by date descending.  `getAccount` sorts with
`.sort((a, b) => new Date(b.date).getTime() - new Date(a.date).getTime())`
(`src/lib/actions/bank.actions.ts` line 127); `Array.prototype.sort` is
stable and this comparator is a consistent descending order on dates, so
its output is the unique date-descending permutation that keeps
equal-dated entries in input order — which is what this insertion sort
produces. -/
def sortByDateDesc : List FeedItem → List FeedItem
  | [] => []
  | x :: xs => insertByDateDesc x (sortByDateDesc xs)

/-- The merged feed of `getAccount`
(`src/lib/actions/bank.actions.ts` lines 124-127): provider transactions
concatenated before transfer records, then sorted by date descending. -/
def mergedFeed (plaidTxns transferTxns : List FeedItem) : List FeedItem :=
  sortByDateDesc (plaidTxns ++ transferTxns)

theorem mem_insertByDateDesc {z x : FeedItem} {l : List FeedItem}
    (h : z ∈ insertByDateDesc x l) : z = x ∨ z ∈ l := by
  induction l with
  | nil => simpa [insertByDateDesc] using h
  | cons y ys ih =>
    simp only [insertByDateDesc] at h
    split at h
    · rcases List.mem_cons.1 h with h | h
      · exact Or.inr (h ▸ List.mem_cons_self y ys)
      · rcases ih h with h | h
        · exact Or.inl h
        · exact Or.inr (List.mem_cons_of_mem y h)
    · simpa using h

theorem pairwise_insertByDateDesc {x : FeedItem} {l : List FeedItem}
    (h : List.Pairwise (fun a b => b.date ≤ a.date) l) :
    List.Pairwise (fun a b => b.date ≤ a.date) (insertByDateDesc x l) := by
  induction l with
  | nil => simp [insertByDateDesc]
  | cons y ys ih =>
    rcases List.pairwise_cons.1 h with ⟨hy, hys⟩
    simp only [insertByDateDesc]
    split
    · rename_i hlt
      refine List.pairwise_cons.2 ⟨?_, ih hys⟩
      intro z hz
      rcases mem_insertByDateDesc hz with rfl | hz
      · exact Nat.le_of_lt hlt
      · exact hy z hz
    · rename_i hge
      refine List.pairwise_cons.2 ⟨?_, h⟩
      intro z hz
      rcases List.mem_cons.1 hz with rfl | hz
      · exact Nat.le_of_not_lt hge
      · exact Nat.le_trans (hy z hz) (Nat.le_of_not_lt hge)

theorem pairwise_sortByDateDesc (l : List FeedItem) :
    List.Pairwise (fun a b => b.date ≤ a.date) (sortByDateDesc l) := by
  induction l with
  | nil => simp [sortByDateDesc]
  | cons x xs ih => exact pairwise_insertByDateDesc ih

theorem filter_insertByDateDesc (x : FeedItem) (l : List FeedItem) (d : Nat) :
    (insertByDateDesc x l).filter (fun z => z.date == d)
      = ((x :: l).filter (fun z => z.date == d)) := by
  induction l with
  | nil => simp [insertByDateDesc]
  | cons y ys ih =>
    simp only [insertByDateDesc]
    split
    · rename_i hlt
      by_cases hx : x.date = d
      · have hy : (y.date == d) = false := by
          have : y.date ≠ d := by omega
          simpa using this
        simp only [List.filter_cons, hy, ih]
        simp [List.filter_cons, hx, hy]
      · have hx' : (x.date == d) = false := by simpa using hx
        simp only [List.filter_cons, ih]
        simp [List.filter_cons, hx']
    · rfl

theorem filter_sortByDateDesc (l : List FeedItem) (d : Nat) :
    (sortByDateDesc l).filter (fun z => z.date == d)
      = l.filter (fun z => z.date == d) := by
  induction l with
  | nil => rfl
  | cons x xs ih =>
    simp only [sortByDateDesc, filter_insertByDateDesc, List.filter_cons, ih]

/-- Claim C6: the merged feed of `getAccount` is sorted by date descending
(pairwise non-increasing dates, hence non-increasing on any inputs with
distinct dates), and ties are broken by stable input order: for each date
`d`, the equal-dated entries of the output are exactly the provider
transactions with date `d` followed by the transfer records with date `d`,
in their original order. -/
theorem getAccount_feed_sorted_stable (plaidTxns transferTxns : List FeedItem) :
    List.Pairwise (fun a b => b.date ≤ a.date) (mergedFeed plaidTxns transferTxns) ∧
    ∀ d : Nat,
      (mergedFeed plaidTxns transferTxns).filter (fun z => z.date == d)
        = plaidTxns.filter (fun z => z.date == d)
            ++ transferTxns.filter (fun z => z.date == d) := by
  constructor
  · exact pairwise_sortByDateDesc _
  · intro d
    rw [mergedFeed, filter_sortByDateDesc, List.filter_append]

/-- Witness for C6 at a concrete mix with a tie at date 50: the provider
transaction precedes the transfer record of the same date and the feed is
date-descending. -/
theorem getAccount_feed_sorted_stable_witness :
    mergedFeed
        [⟨.provider, 50, "p1"⟩, ⟨.provider, 90, "p2"⟩]
        [⟨.transfer, 50, "t1"⟩, ⟨.transfer, 70, "t2"⟩]
      = [⟨.provider, 90, "p2"⟩, ⟨.transfer, 70, "t2"⟩,
         ⟨.provider, 50, "p1"⟩, ⟨.transfer, 50, "t1"⟩] ∧
    ((mergedFeed
        [⟨.provider, 50, "p1"⟩, ⟨.provider, 90, "p2"⟩]
        [⟨.transfer, 50, "t1"⟩, ⟨.transfer, 70, "t2"⟩]).filter
          (fun z => z.date == 50)
      = [⟨.provider, 50, "p1"⟩, ⟨.transfer, 50, "t1"⟩]) :=
  ⟨by decide,
   by
    rw [(getAccount_feed_sorted_stable
      [⟨.provider, 50, "p1"⟩, ⟨.provider, 90, "p2"⟩]
      [⟨.transfer, 50, "t1"⟩, ⟨.transfer, 70, "t2"⟩]).2 50]
    decide⟩

end Banking

namespace Banking

/-- A bank-link document from the Appwrite bank collection (the fields
`getAccounts` reads). -/
structure Bank where
  id : String
  accessToken : String
  shareableId : String
  deriving Repr, DecidableEq

/-- The first account object of a Plaid `accountsGet` response (the fields
`getAccounts` copies out).  Balances are modelled as integers. -/
structure AccountData where
  account_id : String
  available : Int
  current : Int
  name : String
  official_name : String
  mask : String
  type : String
  subtype : String
  deriving Repr, DecidableEq

/-- Plaid institution metadata. -/
structure Institution where
  institution_id : String
  deriving Repr, DecidableEq

/-- The per-bank account record assembled by `getAccounts`
(`src/lib/actions/bank.actions.ts` lines 30-42). -/
structure Account where
  id : String
  availableBalance : Int
  currentBalance : Int
  institutionId : String
  name : String
  officialName : String
  mask : String
  type : String
  subtype : String
  appwriteItemId : String
  shareableId : String
  deriving Repr, DecidableEq

/-- Assembly of one account record from the bank link, the Plaid account
data and the institution metadata (lines 30-42). -/
def mkAccount (bank : Bank) (d : AccountData) (inst : Institution) : Account :=
  { id := d.account_id
    availableBalance := d.available
    currentBalance := d.current
    institutionId := inst.institution_id
    name := d.name
    officialName := d.official_name
    mask := d.mask
    type := d.type
    subtype := d.subtype
    appwriteItemId := bank.id
    shareableId := bank.shareableId }

/-- The aggregate `getAccounts` returns on success (line 53). -/
structure AggResult where
  data : List Account
  totalBanks : Nat
  totalCurrentBalance : Int
  deriving Repr, DecidableEq

/-- The `Promise.all(banks.map(...))` of `getAccounts` (lines 17-46).
`fetch` gives, per bank link, the outcome of the live work inside the
callback: the `accountsGet` call plus the institution lookup (a rejection
models either failing — a failed `getInstitution` returns `undefined` and
reading `institution.institution_id` then throws inside the callback).
`Promise.all` resolves positionally when every callback resolves and
rejects as soon as any callback rejects, which this equivalent sequential
collection captures. -/
def collectAccounts (fetch : Bank → Except ErrBundle (AccountData × Institution)) :
    List Bank → Except ErrBundle (List Account)
  | [] => .ok []
  | b :: bs =>
    match fetch b with
    | .error e => .error e
    | .ok pr =>
      match collectAccounts fetch bs with
      | .error e => .error e
      | .ok rest => .ok (mkAccount b pr.1 pr.2 :: rest)

/-- `getAccounts` (`src/lib/actions/bank.actions.ts` lines 12-57): on any
per-bank rejection the outer catch logs and the function returns
`undefined` (`none`); otherwise the totals are computed over all collected
accounts (lines 48-51) and the aggregate returned. -/
def getAccounts (banks : List Bank)
    (fetch : Bank → Except ErrBundle (AccountData × Institution)) :
    Option AggResult :=
  match collectAccounts fetch banks with
  | .error _ => none
  | .ok accounts =>
    some { data := accounts
           totalBanks := accounts.length
           totalCurrentBalance := accounts.foldl (fun total a => total + a.currentBalance) 0 }

/-- Concrete three-bank store for the C1 counterexample. -/
def cexBank1 : Bank := ⟨"b1", "tok1", "sh1"⟩

def cexBank2 : Bank := ⟨"b2", "tok2", "sh2"⟩

def cexBank3 : Bank := ⟨"b3", "tok3", "sh3"⟩

/-- Concrete per-bank fetch for the C1 counterexample: the live fetch for
bank #2 rejects, banks #1 and #3 succeed with balances 100 and 250. -/
def cexFetch (b : Bank) : Except ErrBundle (AccountData × Institution) :=
  if b.id = "b2" then .error ⟨"accountsGet failed", some 400⟩
  else .ok (⟨b.id ++ "-acct", 10, if b.id = "b1" then 100 else 250,
             "Checking", "Official", "0000", "depository", "checking"⟩,
            ⟨"ins-" ++ b.id⟩)

/-- Counterexample to claim C1 as stated: with 3 linked banks where the
live fetch for bank #2 fails, `getAccounts` does NOT return the metadata
of banks #1 and #3 with `totalBanks = 3` — the single rejection makes the
whole `Promise.all` reject and the operation returns `undefined` (`none`),
so no aggregate at all is produced. -/
theorem getAccounts_partial_tolerance_cex :
    getAccounts [cexBank1, cexBank2, cexBank3] cexFetch = none ∧
    ¬ ∃ r : AggResult, getAccounts [cexBank1, cexBank2, cexBank3] cexFetch = some r := by
  refine ⟨by decide, ?_⟩
  rintro ⟨r, hr⟩
  rw [show getAccounts [cexBank1, cexBank2, cexBank3] cexFetch = none from by decide] at hr
  exact Option.noConfusion hr

/-- The accounts `getAccounts` assembles when every fetch succeeds. -/
def fetchedAccounts (banks : List Bank)
    (fetch : Bank → Except ErrBundle (AccountData × Institution)) : List Account :=
  banks.filterMap (fun b => ((fetch b).map (fun pr => mkAccount b pr.1 pr.2)).toOption)

theorem collectAccounts_of_all_ok (banks : List Bank)
    (fetch : Bank → Except ErrBundle (AccountData × Institution))
    (h : ∀ b ∈ banks, (fetch b).isOk = true) :
    collectAccounts fetch banks = .ok (fetchedAccounts banks fetch) := by
  induction banks with
  | nil => rfl
  | cons b bs ih =>
    have hb : (fetch b).isOk = true := h b (by simp)
    have hbs : ∀ x ∈ bs, (fetch x).isOk = true := fun x hx => h x (by simp [hx])
    cases hfb : fetch b with
    | error e => rw [hfb] at hb; simp [Except.isOk, Except.toBool] at hb
    | ok pr =>
      simp only [collectAccounts, hfb, ih hbs, fetchedAccounts, List.filterMap_cons,
        Except.map, Except.toOption]

theorem collectAccounts_of_one_fails (banks : List Bank)
    (fetch : Bank → Except ErrBundle (AccountData × Institution))
    (b : Bank) (hb : b ∈ banks) (hfail : (fetch b).isOk = false) :
    ∃ e, collectAccounts fetch banks = .error e := by
  induction banks with
  | nil => simp at hb
  | cons c cs ih =>
    cases hfc : fetch c with
    | error e => exact ⟨e, by simp [collectAccounts, hfc]⟩
    | ok pr =>
      rcases List.mem_cons.1 hb with rfl | hb'
      · rw [hfc] at hfail; simp [Except.isOk, Except.toBool] at hfail
      · rcases ih hb' with ⟨e, he⟩
        exact ⟨e, by simp [collectAccounts, hfc, he]⟩

/-- Claim C1 amended: `getAccounts` is all-or-nothing, not
partial-result-tolerant.  If every linked bank's live fetch succeeds it
returns all the per-bank metadata, `totalBanks` equal to the number of
links, and `totalCurrentBalance` summing `currentBalance` over all links;
but as soon as a single bank's fetch fails the whole aggregation aborts
and returns `undefined` (`none`) — no metadata for the other banks, no
totals. -/
theorem getAccounts_all_or_nothing (banks : List Bank)
    (fetch : Bank → Except ErrBundle (AccountData × Institution)) :
    ((∀ b ∈ banks, (fetch b).isOk = true) →
      getAccounts banks fetch
        = some { data := fetchedAccounts banks fetch
                 totalBanks := (fetchedAccounts banks fetch).length
                 totalCurrentBalance :=
                   (fetchedAccounts banks fetch).foldl
                     (fun total a => total + a.currentBalance) 0 }) ∧
    ((∃ b ∈ banks, (fetch b).isOk = false) → getAccounts banks fetch = none) := by
  constructor
  · intro h
    rw [getAccounts, collectAccounts_of_all_ok banks fetch h]
  · rintro ⟨b, hb, hfail⟩
    rcases collectAccounts_of_one_fails banks fetch b hb hfail with ⟨e, he⟩
    rw [getAccounts, he]

/-- Witness for the amended C1: on the all-ok side, banks #1 and #3 with
balances 100 and 250 aggregate to `totalBanks = 2` and total 350; on the
failure side, the three-bank store with bank #2 failing yields `none`. -/
theorem getAccounts_all_or_nothing_witness :
    getAccounts [cexBank1, cexBank3] cexFetch
      = some { data := fetchedAccounts [cexBank1, cexBank3] cexFetch
               totalBanks := 2
               totalCurrentBalance := 350 } ∧
    getAccounts [cexBank1, cexBank2, cexBank3] cexFetch = none := by
  constructor
  · have h := (getAccounts_all_or_nothing [cexBank1, cexBank3] cexFetch).1 (by decide)
    rw [h]
    decide
  · exact (getAccounts_all_or_nothing [cexBank1, cexBank2, cexBank3] cexFetch).2
      ⟨cexBank2, by decide, by decide⟩

end Banking

namespace Banking

/-- Outcomes of the remote calls `exchangePublicToken` awaits, in source
order (`src/unnamed/part_001` lines 338-400).  Each `Except` is a Plaid
call that can reject; `addFundingSource` is the Dwolla wrapper from
`src/lib/actions/dwolla.actions.ts` lines 172-192, which catches every
failure internally and resolves to `undefined` (`none`) instead of
rejecting. -/
structure LinkEnv where
  itemPublicTokenExchange : Except ErrBundle (String × String)
  accountsGet : Except ErrBundle (List AccountData)
  processorTokenCreate : Except ErrBundle String
  addFundingSource : Option String
  deriving Repr

/-- The observable outcome of one `exchangePublicToken` call: the value
returned (`some "complete"` on success, `undefined` when the catch
swallowed a failure) and whether `createBankAccount` — the persistence of
the BankLink document — was invoked. -/
structure LinkOutcome where
  result : Option String
  bankLinkPersisted : Bool
  deriving Repr, DecidableEq

/-- `exchangePublicToken` (`src/unnamed/part_001` lines 338-400): exchange
the public token, read the primary account (`accounts[0]`; an empty list
makes the later `accountData.account_id` access throw), create the Dwolla
processor token, register the funding source (`if (!fundingSourceUrl)
throw Error`), and only then persist the bank link with
`createBankAccount`.  Any throw lands in the catch, which logs and returns
`undefined`. -/
def exchangePublicToken (env : LinkEnv) : LinkOutcome :=
  match env.itemPublicTokenExchange with
  | .error _ => ⟨none, false⟩
  | .ok _ =>
    match env.accountsGet with
    | .error _ => ⟨none, false⟩
    | .ok accounts =>
      match accounts.head? with
      | none => ⟨none, false⟩
      | some _ =>
        match env.processorTokenCreate with
        | .error _ => ⟨none, false⟩
        | .ok _ =>
          match env.addFundingSource with
          | none => ⟨none, false⟩
          | some _ => ⟨some "complete", true⟩

/-- True when the primary-account fetch step fails: the `accountsGet` call
rejects, or resolves with no account to read at index 0. -/
def primaryAccountFetchFails (env : LinkEnv) : Bool :=
  match env.accountsGet with
  | .error _ => true
  | .ok accounts => accounts.isEmpty

/-- Claim C7: if any step of the link sequence fails — the public-token
exchange, the primary-account fetch, the processor-token creation, or the
funding-source registration — the whole attempt aborts and no partial
BankLink record is persisted: `createBankAccount` is never invoked. -/
theorem exchangePublicToken_all_or_nothing (env : LinkEnv)
    (h : env.itemPublicTokenExchange.isOk = false ∨
         primaryAccountFetchFails env = true ∨
         env.processorTokenCreate.isOk = false ∨
         env.addFundingSource = none) :
    (exchangePublicToken env).bankLinkPersisted = false ∧
    (exchangePublicToken env).result = none := by
  have : exchangePublicToken env = ⟨none, false⟩ := by
    rcases env with ⟨hex, hacc, hproc, hfund⟩
    rcases hex with e | v
    · rfl
    · rcases hacc with e | accounts
      · rfl
      · cases haccs : accounts.head? with
        | none => simp [exchangePublicToken, haccs]
        | some a =>
          have hne : accounts.isEmpty = false := by
            cases accounts with
            | nil => simp at haccs
            | cons x xs => rfl
          rcases hproc with e | pt
          · simp [exchangePublicToken, haccs]
          · cases hfund with
            | none => simp [exchangePublicToken, haccs]
            | some url =>
              exfalso
              simp [Except.isOk, Except.toBool, primaryAccountFetchFails, hne] at h
  rw [this]
  exact ⟨rfl, rfl⟩

/-- Witness for C7: a failing funding-source registration (with every
Plaid step succeeding) leaves the bank link unpersisted. -/
theorem exchangePublicToken_all_or_nothing_witness :
    (exchangePublicToken
        ⟨.ok ("access-1", "item-1"),
         .ok [⟨"acct-1", 10, 100, "Checking", "Official", "0000", "depository", "checking"⟩],
         .ok "processor-1", none⟩).bankLinkPersisted = false :=
  (exchangePublicToken_all_or_nothing
      ⟨.ok ("access-1", "item-1"),
       .ok [⟨"acct-1", 10, 100, "Checking", "Official", "0000", "depository", "checking"⟩],
       .ok "processor-1", none⟩
      (Or.inr (Or.inr (Or.inr rfl)))).1

end Banking

namespace Banking

/-- Removal of the first "/" occurrence from a character list, modelling
JavaScript's `path.replace('/', '')` with a single-character pattern
(`String.prototype.replace` with a string pattern replaces only the first
occurrence). -/
def removeFirstSlash : List Char → List Char
  | [] => []
  | c :: cs => if c == '/' then cs else c :: removeFirstSlash cs

/-- One entry of `_embedded.errors` in a Dwolla validation body: an
optional JSON-pointer-style field path and a message. -/
structure DwollaFieldError where
  path : Option String
  message : String
  deriving Repr, DecidableEq

/-- The parsed body of a rejected Dwolla request as
`createDwollaCustomer`'s catch reads it: the `_embedded.errors` array when
present (`none` models a missing `_embedded`/`errors` or a non-array
value), the body's own `message` field, and `raw`, the JSON serialization
`JSON.stringify(errorBody)` used as last-resort text. -/
structure DwollaErrBody where
  embeddedErrors : Option (List DwollaFieldError)
  message : Option String
  raw : String
  deriving Repr, DecidableEq

/-- The field label of one embedded error
(`src/lib/actions/dwolla.actions.ts` line 111):
`e.path?.replace('/', '') || 'field'`. -/
def dwollaFieldLabel (e : DwollaFieldError) : String :=
  match e.path with
  | none => "field"
  | some p =>
    let r := String.mk (removeFirstSlash p.toList)
    if r = "" then "field" else r

/-- The comma-joined "field: message" list built at
`src/lib/actions/dwolla.actions.ts` lines 110-113. -/
def dwollaValidationJoin (errs : List DwollaFieldError) : String :=
  String.intercalate ", " (errs.map (fun e => dwollaFieldLabel e ++ ": " ++ e.message))

/-- The error message thrown by `createDwollaCustomer`'s catch when the
rejection carries a response body
(`src/lib/actions/dwolla.actions.ts` lines 105-121): a structured
validation body with an embedded error list joins the field errors into
one "Validation error: ..." message; otherwise the body's `message` (or
its JSON serialization) is wrapped in the generic failure text. -/
def createDwollaCustomerCatch (body : DwollaErrBody) : String :=
  match body.embeddedErrors with
  | some errs => "Validation error: " ++ dwollaValidationJoin errs
  | none =>
    "Dwolla customer creation failed: " ++
      (match body.message with
       | some m => m
       | none => body.raw)

/-- The spec-side reading of the field label: "the leading slash stripped
from the field path". -/
def stripLeadingSlash (p : String) : String :=
  match p.toList with
  | '/' :: r => String.mk r
  | _ => p

/-- Claim C9: when the payment-rail provider rejects customer creation
with a structured validation body carrying an embedded list of field
errors — each with a slash-led, non-trivial field path — the classifier
produces the validation message joining the errors as "field: message"
pairs, comma-joined, with the leading slash stripped from each field
path. -/
theorem createDwollaCustomer_validation_join (body : DwollaErrBody)
    (errs : List DwollaFieldError)
    (hb : body.embeddedErrors = some errs)
    (hp : ∀ e ∈ errs, ∃ p r, e.path = some p ∧ p.toList = '/' :: r ∧ r ≠ []) :
    createDwollaCustomerCatch body
      = "Validation error: " ++
          String.intercalate ", "
            (errs.map (fun e => stripLeadingSlash (e.path.getD "") ++ ": " ++ e.message)) := by
  have hmap : errs.map (fun e => dwollaFieldLabel e ++ ": " ++ e.message)
      = errs.map (fun e => stripLeadingSlash (e.path.getD "") ++ ": " ++ e.message) := by
    apply List.map_congr_left
    intro e he
    rcases hp e he with ⟨p, r, hpath, hlist, hr⟩
    have hremove : removeFirstSlash p.toList = r := by
      rw [hlist]; simp [removeFirstSlash]
    have hne : String.mk r ≠ "" := by
      intro hcontr
      exact hr (congrArg String.data hcontr)
    have hlabel : dwollaFieldLabel e = String.mk r := by
      simp only [dwollaFieldLabel, hpath, hremove]
      rw [if_neg hne]
    have hstrip : stripLeadingSlash (e.path.getD "") = String.mk r := by
      rw [hpath]
      simp only [Option.getD, stripLeadingSlash, hlist]
    rw [hlabel, hstrip]
  simp only [createDwollaCustomerCatch, hb, dwollaValidationJoin, hmap]

/-- Witness for C9, the scenario of the spec: the body
`{_embedded:{errors:[{path:"/state", message:"must be a US state"}]}}`
yields the message "Validation error: state: must be a US state" — the
field "state" with the leading slash stripped and the detail joined. -/
theorem createDwollaCustomer_validation_join_witness :
    createDwollaCustomerCatch
        ⟨some [⟨some "/state", "must be a US state"⟩], none, "{}"⟩
      = "Validation error: state: must be a US state" := by
  have h := createDwollaCustomer_validation_join
    ⟨some [⟨some "/state", "must be a US state"⟩], none, "{}"⟩
    [⟨some "/state", "must be a US state"⟩]
    rfl
    (by
      intro e he
      simp at he
      subst he
      exact ⟨"/state", ['s','t','a','t','e'], rfl, by decide, by simp⟩)
  rw [h]
  decide

/-- A resolved Dwolla POST response: the `location` response header
(`null` when absent) and the `body._links` object. -/
structure DwollaResponse where
  location : Option String
  links : List (String × String)
  deriving Repr, DecidableEq

/-- `createFundingSource` (`src/lib/actions/dwolla.actions.ts` lines
27-40): resolve to the location header, catch any rejection, log it and
fall through to `undefined`. -/
def createFundingSource (post : Except ErrBundle DwollaResponse) : Option String :=
  match post with
  | .error _ => none
  | .ok r => r.location

/-- `createOnDemandAuthorization` (lines 42-52): resolve to
`body._links`, catch any rejection, log it and fall through to
`undefined`. -/
def createOnDemandAuthorization (post : Except ErrBundle DwollaResponse) :
    Option (List (String × String)) :=
  match post with
  | .error _ => none
  | .ok r => some r.links

/-- `createTransfer` (lines 144-170): resolve to the location header,
catch any rejection, log it and fall through to `undefined`. -/
def createTransfer (post : Except ErrBundle DwollaResponse) : Option String :=
  match post with
  | .error _ => none
  | .ok r => r.location

/-- Claim C10: `createFundingSource`, `createOnDemandAuthorization` and
`createTransfer` never throw to their caller — they are total on every
provider outcome; every provider rejection is caught and the function
returns `undefined` (`none`), so an undefined result is the failure
signal; a resolved call returns the location header / links object. -/
theorem dwolla_ops_swallow_errors (e : ErrBundle) (r : DwollaResponse) :
    createFundingSource (.error e) = none ∧
    createOnDemandAuthorization (.error e) = none ∧
    createTransfer (.error e) = none ∧
    createFundingSource (.ok r) = r.location ∧
    createOnDemandAuthorization (.ok r) = some r.links ∧
    createTransfer (.ok r) = r.location :=
  ⟨rfl, rfl, rfl, rfl, rfl, rfl⟩

/-- Witness for C10 at a concrete rejection and a concrete response. -/
theorem dwolla_ops_swallow_errors_witness :
    createFundingSource (.error ⟨"ValidationError", some 400⟩) = none ∧
    createTransfer (.ok ⟨some "https://api.dwolla.com/transfers/t1", []⟩)
      = some "https://api.dwolla.com/transfers/t1" :=
  ⟨(dwolla_ops_swallow_errors ⟨"ValidationError", some 400⟩
      ⟨some "https://api.dwolla.com/transfers/t1", []⟩).1,
   (dwolla_ops_swallow_errors ⟨"ValidationError", some 400⟩
      ⟨some "https://api.dwolla.com/transfers/t1", []⟩).2.2.2.2.2⟩

end Banking

namespace Banking

/-- An Appwrite authentication principal, as returned by
`account.create`. -/
structure Principal where
  id : String
  deriving Repr, DecidableEq

/-- Outcomes of the remote calls `signUp` can await
(`src/unnamed/part_001` lines 107-258), in source order.  The first six
drive the main path; the fields from `testSession` on drive the
already-exists recovery branch of the catch block.  `accountCreate`
resolving to `none` models `account.create` returning a falsy value;
`dwolla`/`dwollaRec` are the outcomes of `createDwollaCustomer`, which (by
its own source, `src/lib/actions/dwolla.actions.ts` lines 54-142) either
returns a non-empty location URL or throws an `Error` with the classified
message — it never resolves to a falsy value. -/
structure SignUpEnv where
  accountCreate : Except ErrBundle (Option Principal)
  dwolla : Except String String
  createDoc : Except ErrBundle (Option Profile)
  deleteIdentity : Except ErrBundle Unit
  session : Except ErrBundle Session
  testSession : Except ErrBundle Session
  deleteTestSession : Except ErrBundle Unit
  getUserInfoRec : Option Profile
  dwollaRec : Except String String
  createDocRec : Except ErrBundle (Option Profile)
  sessionRec : Except ErrBundle Session
  deriving Repr

/-- The observable outcome of one `signUp` call: the surfaced error
message or returned profile, and whether the just-created authentication
principal was successfully deleted (`account.deleteIdentity` invoked and
resolved). -/
structure SignUpResult where
  result : Except String Profile
  principalDeleted : Bool
  deriving Repr

/-- The try block of `signUp` (`src/unnamed/part_001` lines 112-172).
A failure carries the thrown error plus whether the principal had been
deleted by the time the throw reached the catch: the only deletion sites
are the two `if (!...)` cleanup blocks (lines 129-137 and 153-161), whose
`deleteIdentity` errors are swallowed. -/
def signUpTry (env : SignUpEnv) : Except (ErrBundle × Bool) Profile :=
  match env.accountCreate with
  | .error e => .error (e, false)
  | .ok none => .error (⟨"Error creating user account", none⟩, false)
  | .ok (some _) =>
    match env.dwolla with
    | .error msg => .error (⟨msg, none⟩, false)
    | .ok url =>
      if url = "" then
        .error (⟨"Error creating Dwolla customer. Please try again.", none⟩,
                env.deleteIdentity.isOk)
      else
        match env.createDoc with
        | .error e => .error (e, false)
        | .ok none =>
          .error (⟨"Error creating user profile. Please try again.", none⟩,
                  env.deleteIdentity.isOk)
        | .ok (some doc) =>
          match env.session with
          | .error e => .error (e, false)
          | .ok _ => .ok doc

/-- The guard of `signUp`'s already-exists recovery
(`src/unnamed/part_001` lines 177-179). -/
def alreadyExistsGuard (e : ErrBundle) : Bool :=
  containsSub "already exists" e.message ||
  containsSub "already registered" e.message ||
  e.code == some 409

/-- The uniform message of the recovery branch. -/
def alreadyExistsMsg : String :=
  "An account with this email already exists. Please sign in instead."

/-- The catch around the recovery attempt (`src/unnamed/part_001` lines
244-250): a recovery error mentioning "already exists" is re-thrown,
anything else becomes the uniform already-exists message.  The principal
is never deleted here. -/
def recoveryCatch (del : Bool) (re : ErrBundle) : SignUpResult :=
  if containsSub "already exists" re.message then ⟨.error re.message, del⟩
  else ⟨.error alreadyExistsMsg, del⟩

/-- The recovery branch of `signUp`'s catch (`src/unnamed/part_001` lines
181-252): probe the credentials with a test session (deleting it again),
look up the profile document, and when the document is missing re-run
customer creation and document persistence, then re-establish a session;
in every other case surface the already-exists message. -/
def signUpRecovery (env : SignUpEnv) (del : Bool) : SignUpResult :=
  match env.testSession with
  | .error _ => recoveryCatch del ⟨alreadyExistsMsg, none⟩
  | .ok _ =>
    match env.deleteTestSession with
    | .error _ => recoveryCatch del ⟨alreadyExistsMsg, none⟩
    | .ok _ =>
      match env.getUserInfoRec with
      | some _ => recoveryCatch del ⟨alreadyExistsMsg, none⟩
      | none =>
        match env.dwollaRec with
        | .error msg => recoveryCatch del ⟨msg, none⟩
        | .ok url =>
          if url = "" then
            recoveryCatch del ⟨"Error creating Dwolla customer. Please try again.", none⟩
          else
            match env.createDocRec with
            | .error e => recoveryCatch del e
            | .ok none => ⟨.error alreadyExistsMsg, del⟩
            | .ok (some doc) =>
              match env.sessionRec with
              | .error e => recoveryCatch del e
              | .ok _ => ⟨.ok doc, del⟩

/-- `signUp` (`src/unnamed/part_001` lines 107-258): run the try block;
on a throw, enter the recovery branch when the error looks like
"already exists", otherwise re-throw the error as-is.  The outer catch
never deletes the principal. -/
def signUp (env : SignUpEnv) : SignUpResult :=
  match signUpTry env with
  | .ok doc => ⟨.ok doc, false⟩
  | .error (e, del) =>
    if alreadyExistsGuard e then signUpRecovery env del
    else ⟨.error e.message, del⟩

/-- The Dwolla validation message for the state-code rejection, as built
by `createDwollaCustomer`'s catch. -/
def c8DwollaMsg : String := "Validation error: state: must be a US state"

/-- Concrete `signUp` run for C8: the principal is created, the Dwolla
customer creation throws the state-validation error (as
`createDwollaCustomer` always throws on failure and never resolves
falsy), and every later call would succeed — in particular
`deleteIdentity` would succeed if it were ever invoked. -/
def c8Env : SignUpEnv :=
  { accountCreate := .ok (some ⟨"principal-1"⟩)
    dwolla := .error c8DwollaMsg
    createDoc := .ok (some ⟨"principal-1"⟩)
    deleteIdentity := .ok ()
    session := .ok ⟨"principal-1", "sec"⟩
    testSession := .ok ⟨"principal-1", "sec"⟩
    deleteTestSession := .ok ()
    getUserInfoRec := none
    dwollaRec := .error c8DwollaMsg
    createDocRec := .ok none
    sessionRec := .ok ⟨"principal-1", "sec"⟩ }

/-- Claim C8 fails on the code (code bug): in `c8Env` the authentication
principal is created and payment-customer creation then fails, yet
`signUp` surfaces the error with `principalDeleted = false` — the
just-created principal is never deleted, because `createDwollaCustomer`
throws on every failure (never resolving falsy), so the
`if (!dwollaCustomerUrl)` cleanup block the source dedicates to this case
(its own comment: "Clean up: delete the Appwrite account if Dwolla
fails") is unreachable and the throw propagates straight to the outer
catch, which re-throws without any rollback. -/
theorem signUp_dwolla_failure_leaves_principal :
    c8Env.accountCreate = .ok (some ⟨"principal-1"⟩) ∧
    c8Env.dwolla = .error c8DwollaMsg ∧
    c8Env.deleteIdentity = .ok () ∧
    signUp c8Env = ⟨.error c8DwollaMsg, false⟩ := by
  refine ⟨rfl, rfl, rfl, ?_⟩
  have hguard : alreadyExistsGuard ⟨c8DwollaMsg, none⟩ = false := by decide
  have htry : signUpTry c8Env = .error (⟨c8DwollaMsg, none⟩, false) := rfl
  rw [signUp, htry]
  simp only [hguard]
  rfl

end Banking
